import Mathlib

/-!
Verification of the overlay visibility / window-lifecycle controller of the
`apx` desktop command overlay (Electron main process, `src/main.js` and its
most recent variant).  The definitions below are a shallow embedding of the
relevant JavaScript: each `def` carries a comment naming the source function
it embeds.  Window state is modelled as a record of the BrowserWindow
attributes the controller reads and writes; Electron method calls become
pure record updates; thrown-and-caught exceptions become explicit branches.
-/

namespace Apx

/-- State of an Electron `BrowserWindow` as far as the controller observes or
mutates it: visibility, OS input focus, the always-on-top and
visible-on-all-workspaces flags, the ignore-mouse-events (click-through)
setting with its `forward` option, the destroyed flag, and position. -/
structure WindowState where
  visible : Bool
  focused : Bool
  alwaysOnTop : Bool
  visibleOnAllWorkspaces : Bool
  ignoreMouseEvents : Bool
  forwardMouseEvents : Bool
  destroyed : Bool
  x : Int
  y : Int
  deriving Repr, DecidableEq

/-- `win.show()` — makes the window visible and activates it (Electron's
`show` transfers OS input focus to the window). -/
def WindowState.showWindow (w : WindowState) : WindowState :=
  { w with visible := true, focused := true }

/-- `win.showInactive()` — makes the window visible without activating it
(OS input focus is not transferred). -/
def WindowState.showInactive (w : WindowState) : WindowState :=
  { w with visible := true }

/-- `win.hide()` — hides the window; a hidden window does not hold focus. -/
def WindowState.hideWindow (w : WindowState) : WindowState :=
  { w with visible := false, focused := false }

/-- `win.focus()` — transfers OS input focus to the window. -/
def WindowState.focusWindow (w : WindowState) : WindowState :=
  { w with focused := true }

/-- `win.setAlwaysOnTop(b, 'screen-saver')`. -/
def WindowState.setAlwaysOnTop (w : WindowState) (b : Bool) : WindowState :=
  { w with alwaysOnTop := b }

/-- `win.setVisibleOnAllWorkspaces(b, ...)`. -/
def WindowState.setVisibleOnAllWorkspaces (w : WindowState) (b : Bool) : WindowState :=
  { w with visibleOnAllWorkspaces := b }

/-- `win.setIgnoreMouseEvents(ignore, { forward })`; with no options object
the `forward` flag is unset (false). -/
def WindowState.setIgnoreMouseEvents (w : WindowState) (ignore forward : Bool) :
    WindowState :=
  { w with ignoreMouseEvents := ignore, forwardMouseEvents := forward }

/-- Result of a guarded window operation: either the operation's value, or
the sentinel `false` the guard returns when it does not (successfully) run
the operation (`return false` in the JavaScript). -/
inductive GuardResult (α : Type) where
  | value (a : α)
  | sentinelFalse
  deriving Repr, DecidableEq

/-- `safeOverlayOperation(operation)` from `src/main.js` lines 14-24 (same
text in the most recent variant, lines 31-41):
if the `overlayWindow` reference is non-null and not destroyed, invoke the
operation inside try/catch, converting a thrown error into a logged `false`;
otherwise return `false` without invoking the operation.  A fallible
operation is embedded as `WindowState → Except String α`. -/
def safeOverlayOperation {α : Type} (overlayWindow : Option WindowState)
    (operation : WindowState → Except String α) : GuardResult α :=
  match overlayWindow with
  | some w =>
    if w.destroyed = false then
      match operation w with
      | .ok a => .value a
      | .error _ => .sentinelFalse
    else .sentinelFalse
  | none => .sentinelFalse

/-- `safeMainWindowOperation(operation)` from `src/main.js` lines 26-36:
textually identical to `safeOverlayOperation` but guarding the `mainWindow`
reference. -/
def safeMainWindowOperation {α : Type} (mainWindow : Option WindowState)
    (operation : WindowState → Except String α) : GuardResult α :=
  match mainWindow with
  | some w =>
    if w.destroyed = false then
      match operation w with
      | .ok a => .value a
      | .error _ => .sentinelFalse
    else .sentinelFalse
  | none => .sentinelFalse

/-- Mutable module state of the main process that the controller touches:
the `overlayWindow` reference (null when absent) and, in the most recent
variant, the `allowOverlayHide` flag (`let allowOverlayHide = false`). -/
structure MainState where
  overlayWindow : Option WindowState
  allowOverlayHide : Bool
  deriving Repr, DecidableEq

/-- The overlay's visibility as observed from outside: visible iff a live
window reference exists and its window is visible. -/
def MainState.overlayVisible (s : MainState) : Bool :=
  match s.overlayWindow with
  | some w => w.visible
  | none => false

/-- Whether the overlay window currently holds OS input focus. -/
def MainState.overlayFocused (s : MainState) : Bool :=
  match s.overlayWindow with
  | some w => w.focused
  | none => false

/-- `createOverlayWindow()` (both variants): `new BrowserWindow({ width: 700,
height: 500, x: (width - 700) / 2, y: 100, alwaysOnTop: true, show: false,
... })`, then `setIgnoreMouseEvents(true, { forward: true })` and (most
recent variant) `setAlwaysOnTop(true, 'screen-saver')`,
`setVisibleOnAllWorkspaces(true, { visibleOnFullScreen: true })`.
The window is created hidden, unfocused, click-through, at the fixed default
position centred horizontally near the top of the primary display. -/
def createOverlayWindow (screenWidth : Int) : WindowState :=
  { visible := false
    focused := false
    alwaysOnTop := true
    visibleOnAllWorkspaces := true
    ignoreMouseEvents := true
    forwardMouseEvents := true
    destroyed := false
    x := (screenWidth - 700) / 2
    y := 100 }

/-- The `'hide'` event handler of the most recent variant (lines 193-208):
if `allowOverlayHide` is set the hide is accepted and the flag is reset;
otherwise the overlay is restored with `showInactive()`,
`setAlwaysOnTop(true, 'screen-saver')` and
`setVisibleOnAllWorkspaces(true, ...)` inside try/catch (a thrown error —
null reference or destroyed window — is logged and swallowed). -/
def hideEventHandler (s : MainState) : MainState :=
  if s.allowOverlayHide then
    { s with allowOverlayHide := false }
  else
    match s.overlayWindow with
    | some w =>
      if w.destroyed then s
      else
        let w1 := ((w.showInactive).setAlwaysOnTop true).setVisibleOnAllWorkspaces true
        { s with overlayWindow := some w1 }
    | none => s

/-- The overlay window being hidden (by `overlay.hide()` or any other cause):
the window becomes hidden and the `'hide'` event handler then runs.  A hide
call on a null or destroyed reference throws and is caught by the enclosing
try/catch, leaving the state unchanged. -/
def windowHide (s : MainState) : MainState :=
  match s.overlayWindow with
  | some w =>
    if w.destroyed then s
    else hideEventHandler { s with overlayWindow := some w.hideWindow }
  | none => s

/-- The `'close'` event handler of the most recent variant (lines 222-228):
`e.preventDefault()` stops the window from being destroyed and
`overlayWindow.hide()` is called instead, so a close attempt is exactly a
hide (which then runs the `'hide'` handler). -/
def closeAttempt (s : MainState) : MainState :=
  windowHide s

/-- The safety `setTimeout(() => { allowOverlayHide = false; }, 1500)`
scheduled by the hotkey hide path, firing. -/
def allowHideSafetyReset (s : MainState) : MainState :=
  { s with allowOverlayHide := false }

/-- Delay of the `allowOverlayHide` safety reset, in milliseconds. -/
def allowHideSafetyTimeoutMs : Nat := 1500

/-- The global-shortcut (Cmd+Space / Ctrl+Space) callback of the most recent
variant, `registerGlobalShortcuts` lines 429-450, run through
`safeOverlayOperation`:
if the overlay is visible — set `allowOverlayHide`, call `overlay.hide()`
(whose `'hide'` event handler consumes the flag), then
`setIgnoreMouseEvents(true, { forward: true })`;
if hidden — `setAlwaysOnTop(true, 'screen-saver')`,
`setVisibleOnAllWorkspaces(true, ...)`, `overlay.show()`, `overlay.focus()`,
send `'focus-input'` to the content layer, and
`setIgnoreMouseEvents(false)`.  (The older `src/main.js` variant, lines
241-256, has the same show path and a hide path that is a bare
`overlay.hide()`.) -/
def hotkeyToggle (s : MainState) : MainState :=
  match s.overlayWindow with
  | none => s
  | some w =>
    if w.destroyed then s
    else if w.visible then
      let s1 := windowHide { s with allowOverlayHide := true }
      match s1.overlayWindow with
      | some w1 =>
        { s1 with overlayWindow := some (w1.setIgnoreMouseEvents true true) }
      | none => s1
    else
      let w1 := (w.setAlwaysOnTop true).setVisibleOnAllWorkspaces true
      let w2 := ((w1.showWindow).focusWindow).setIgnoreMouseEvents false false
      { s with overlayWindow := some w2 }

/-- `n` consecutive hotkey toggles. -/
def togglesN : Nat → MainState → MainState
  | 0, s => s
  | n + 1, s => togglesN n (hotkeyToggle s)

/-- Main-process state right after startup (`createOverlayWindow()` has run,
`allowOverlayHide` is at its initial `false`). -/
def initMainState (screenWidth : Int) : MainState :=
  { overlayWindow := some (createOverlayWindow screenWidth)
    allowOverlayHide := false }

/-- The `'blur'` event handler (most recent variant lines 186-190, older
variant lines 147-151): re-assert `setAlwaysOnTop(true, 'screen-saver')` and
`setVisibleOnAllWorkspaces(true, ...)`; nothing else. -/
def blurHandler (w : WindowState) : WindowState :=
  (w.setAlwaysOnTop true).setVisibleOnAllWorkspaces true

/-- The `'crashed'` handler's `setTimeout` body firing, 1000 ms after a
renderer crash (both variants): `if (!overlayWindow ||
overlayWindow.isDestroyed()) { createOverlayWindow(); }`.  Returns the new
state together with whether a reconstruction was performed. -/
def crashedTimeoutFire (screenWidth : Int) (s : MainState) : MainState × Bool :=
  match s.overlayWindow with
  | none => ({ s with overlayWindow := some (createOverlayWindow screenWidth) }, true)
  | some w =>
    if w.destroyed then
      ({ s with overlayWindow := some (createOverlayWindow screenWidth) }, true)
    else (s, false)

/-- Delay before the crashed handler re-checks the window, in milliseconds
(`setTimeout(..., 1000)`). -/
def recreateDelayMs : Nat := 1000

/-- One crash cycle: the renderer crash destroys the overlay window, then
the crashed handler's timeout fires. -/
def crashAndRecreate (screenWidth : Int) (s : MainState) : MainState × Bool :=
  crashedTimeoutFire screenWidth
    { s with overlayWindow := s.overlayWindow.map (fun w => { w with destroyed := true }) }

/-- Number of reconstructions the crashed handler performs over `k`
consecutive crash cycles. -/
def recreateAttempts (screenWidth : Int) : Nat → MainState → Nat
  | 0, _ => 0
  | k + 1, s =>
    let p := crashAndRecreate screenWidth s
    (if p.2 then 1 else 0) + recreateAttempts screenWidth k p.1

/-- The data object the backend resolves with (the fields the handler
reads). -/
structure BackendReply where
  success : Bool
  error : Option String
  result : Option String
  deriving Repr, DecidableEq

/-- Outcome of the `axios.post` call inside the `'send-command'` handler:
the promise either resolves with backend data, or rejects with an error
whose `code` is `'ECONNREFUSED'` or `'ETIMEDOUT'`, or carries a `response`
(HTTP error status), or is some other thrown error. -/
inductive SendOutcome where
  | response (data : BackendReply)
  | connRefused
  | timedOut
  | httpError (status : Nat) (statusText : String) (dataError : Option String)
  | otherFailure
  deriving Repr, DecidableEq

/-- The object the `'send-command'` handler returns to the renderer (the
fields the claim is about). -/
structure CommandResult where
  success : Bool
  error : Option String
  result : Option String
  deriving Repr, DecidableEq

/-- Default error message of the `'send-command'` catch block:
`let errorMessage = 'Failed to connect to backend service'`. -/
def defaultErrorMessage : String := "Failed to connect to backend service"

/-- Default remedy of the `'send-command'` catch block: `let suggestion =
'Please ensure the backend service is running with: npm run backend'`. -/
def defaultSuggestion : String :=
  "Please ensure the backend service is running with: npm run backend"

/-- `ipcMain.handle('send-command', ...)` (older variant lines 432-485, most
recent variant lines 717-780): on a resolved response the backend data is
returned as-is; in the catch block an `errorMessage` and `suggestion` start
at their defaults, are specialised on `error.code === 'ECONNREFUSED'`,
`error.code === 'ETIMEDOUT'` or `error.response`, and
`{ success: false, error: errorMessage, result: suggestion }` is returned —
the handler never rethrows (it is a total function here). -/
def sendCommandHandler (out : SendOutcome) : CommandResult :=
  match out with
  | .response d => { success := d.success, error := d.error, result := d.result }
  | .connRefused =>
    { success := false
      error := some "Backend service is not running"
      result := some defaultSuggestion }
  | .timedOut =>
    { success := false
      error := some "Backend service is not responding (timeout)"
      result := some "The backend may be overloaded or stuck" }
  | .httpError status statusText dataError =>
    { success := false
      error := some ("Backend error: " ++ toString status ++ " - " ++ statusText)
      result := some (dataError.getD defaultSuggestion) }
  | .otherFailure =>
    { success := false
      error := some defaultErrorMessage
      result := some defaultSuggestion }

/-- Visibility states of the overlay state machine (spec §3); `Recreating`
is not needed for the timer claims. -/
inductive VisState where
  | Hidden
  | Showing
  | Pinned
  deriving Repr, DecidableEq

/-- Interaction events consumed by the visibility state machine, plus the
auto-hide timer firing. -/
inductive VisEvent where
  | HotkeyToggle
  | ResultReceived
  | Clicked
  | HoverEntered
  | HoverExited
  | KeyEscape
  | Blur
  | TimerFire
  deriving Repr, DecidableEq

/-- Visibility state together with whether an auto-hide timer is active. -/
structure SMState where
  vis : VisState
  timerActive : Bool
  deriving Repr, DecidableEq

/-- Modelled from the spec: the auto-hide timer and pin logic live in the
overlay's content layer (`overlay-unified.html`), which is not included
under `src/`; this transition function follows the table of spec §4.2 and
the timer rules of §4.3 word for word.  Hidden + HotkeyToggle → Showing
(stale timer cleared); Showing + HotkeyToggle → Hidden (pending timer
cancelled); Showing + ResultReceived → Showing with exactly one (re)started
timer; Showing + Clicked/HoverEntered → Pinned with the timer cancelled;
Pinned + KeyEscape → Hidden; Pinned + HoverExited → Showing with no new
timer; blur leaves any state unchanged; a timer fire hides the overlay only
if the state is still Showing and is ignored otherwise; Pinned persists
until Escape or an explicit hotkey toggle. -/
def smStep : SMState → VisEvent → SMState
  | ⟨.Hidden, _⟩, .HotkeyToggle => ⟨.Showing, false⟩
  | ⟨.Showing, _⟩, .HotkeyToggle => ⟨.Hidden, false⟩
  | ⟨.Pinned, _⟩, .HotkeyToggle => ⟨.Hidden, false⟩
  | ⟨.Showing, _⟩, .ResultReceived => ⟨.Showing, true⟩
  | ⟨.Showing, _⟩, .Clicked => ⟨.Pinned, false⟩
  | ⟨.Showing, _⟩, .HoverEntered => ⟨.Pinned, false⟩
  | ⟨.Pinned, _⟩, .KeyEscape => ⟨.Hidden, false⟩
  | ⟨.Pinned, t⟩, .HoverExited => ⟨.Showing, t⟩
  | ⟨.Showing, _⟩, .TimerFire => ⟨.Hidden, false⟩
  | s, _ => s

/-- A live, visible, interactive overlay window (the state right after a
hotkey show), used to instantiate theorems at concrete inputs. -/
def visibleWindow : WindowState :=
  { visible := true
    focused := true
    alwaysOnTop := true
    visibleOnAllWorkspaces := true
    ignoreMouseEvents := false
    forwardMouseEvents := false
    destroyed := false
    x := 370
    y := 100 }

/-- A destroyed overlay window reference. -/
def destroyedWindow : WindowState :=
  { visibleWindow with destroyed := true }

/-- Pre-crash snapshot used for the reconstruction claims: the overlay was
visible at position (300, 400) when the renderer crash destroyed it. -/
def preCrashWindow : WindowState :=
  { visibleWindow with x := 300, y := 400, destroyed := true }

/-- Invariant of the controller states reachable by hotkey toggles from
startup: a live (non-destroyed) overlay window exists and the click-through
flag mirrors invisibility (`setIgnoreMouseEvents` is true exactly while the
window is hidden). -/
def goodState (s : MainState) : Prop :=
  ∃ w a, s = ⟨some w, a⟩ ∧ w.destroyed = false ∧ w.ignoreMouseEvents = !w.visible

/-! Helper lemmas characterising one hotkey toggle on a live window. -/

/-- On a live hidden window, the hotkey callback takes the show path:
always-on-top and all-workspace flags asserted, `show()` and `focus()`
called, mouse events re-enabled; `allowOverlayHide` untouched. -/
theorem hotkeyToggle_of_hidden (w : WindowState) (a : Bool)
    (hd : w.destroyed = false) (hv : w.visible = false) :
    hotkeyToggle ⟨some w, a⟩ =
      ⟨some { w with
          alwaysOnTop := true
          visibleOnAllWorkspaces := true
          visible := true
          focused := true
          ignoreMouseEvents := false
          forwardMouseEvents := false }, a⟩ := by
  simp [hotkeyToggle, hd, hv, WindowState.setAlwaysOnTop,
    WindowState.setVisibleOnAllWorkspaces, WindowState.showWindow,
    WindowState.focusWindow, WindowState.setIgnoreMouseEvents]

/-- On a live visible window, the hotkey callback takes the hide path: the
hide is authorised, performed (its `'hide'` event handler consumes the
flag), and click-through is restored. -/
theorem hotkeyToggle_of_visible (w : WindowState) (a : Bool)
    (hd : w.destroyed = false) (hv : w.visible = true) :
    hotkeyToggle ⟨some w, a⟩ =
      ⟨some { w with
          visible := false
          focused := false
          ignoreMouseEvents := true
          forwardMouseEvents := true }, false⟩ := by
  simp [hotkeyToggle, windowHide, hideEventHandler, hd, hv,
    WindowState.hideWindow, WindowState.setIgnoreMouseEvents]

/-- A hotkey toggle preserves the reachable-state invariant and flips the
overlay's visibility. -/
theorem hotkeyToggle_good (s : MainState) (h : goodState s) :
    goodState (hotkeyToggle s) ∧
      (hotkeyToggle s).overlayVisible = !s.overlayVisible := by
  obtain ⟨w, a, rfl, hd, hi⟩ := h
  cases hv : w.visible with
  | false =>
    rw [hotkeyToggle_of_hidden w a hd hv]
    refine ⟨⟨_, a, rfl, hd, rfl⟩, ?_⟩
    simp [MainState.overlayVisible, hv]
  | true =>
    rw [hotkeyToggle_of_visible w a hd hv]
    refine ⟨⟨_, false, rfl, hd, rfl⟩, ?_⟩
    simp [MainState.overlayVisible, hv]

/-- Over any number of hotkey toggles from a reachable state, the invariant
holds and visibility follows the parity of the number of toggles. -/
theorem togglesN_goodVisible :
    ∀ (k : Nat) (s : MainState), goodState s →
      goodState (togglesN k s) ∧
        (togglesN k s).overlayVisible =
          Bool.xor (decide (k % 2 = 1)) s.overlayVisible := by
  intro k
  induction k with
  | zero =>
    intro s hs
    exact ⟨hs, by simp [togglesN]⟩
  | succ k ih =>
    intro s hs
    have hg := hotkeyToggle_good s hs
    have h1 := ih (hotkeyToggle s) hg.1
    refine ⟨h1.1, ?_⟩
    have hst : togglesN (k + 1) s = togglesN k (hotkeyToggle s) := rfl
    rw [hst, h1.2, hg.2]
    rcases Nat.mod_two_eq_zero_or_one k with hk | hk
    · have h2 : (k + 1) % 2 = 1 := by omega
      simp [hk, h2]
    · have h2 : (k + 1) % 2 = 0 := by omega
      simp [hk, h2]

/-- The startup state satisfies the reachable-state invariant. -/
theorem initMainState_good (sw : Int) : goodState (initMainState sw) :=
  ⟨createOverlayWindow sw, false, rfl, rfl, rfl⟩

/-- Over `k` crash cycles, the crashed handler performs exactly `k`
reconstructions: every cycle leaves a destroyed (or absent) reference, so
the 1000 ms timeout recreates the window every single time. -/
theorem recreateAttempts_eq (sw : Int) :
    ∀ (k : Nat) (s : MainState), recreateAttempts sw k s = k := by
  intro k
  induction k with
  | zero => intro s; rfl
  | succ k ih =>
    intro s
    have h2 : (crashAndRecreate sw s).2 = true := by
      cases ho : s.overlayWindow <;>
        simp [crashAndRecreate, crashedTimeoutFire, ho]
    show (if (crashAndRecreate sw s).2 then 1 else 0) +
        recreateAttempts sw k (crashAndRecreate sw s).1 = k + 1
    rw [h2, ih]
    simp only [if_true]
    omega

/-! Claim theorems. -/

/-- C1 (counterexample): in the startup state the overlay is hidden and
unfocused, yet a single HotkeyToggle leaves it focused — the show path calls
`show()` and `focus()`, so OS input focus is transferred to the overlay,
contradicting the claim that focus remains with the previous application. -/
theorem hotkey_show_transfers_focus_cex :
    (initMainState 1440).overlayVisible = false ∧
    (initMainState 1440).overlayFocused = false ∧
    (hotkeyToggle (initMainState 1440)).overlayFocused = true :=
  ⟨rfl, rfl, rfl⟩

/-- C1 (amended): when a HotkeyToggle arrives while the overlay is not
visible (live window), the show path raises the overlay activating: the
overlay becomes visible and OS input focus is transferred to it (`show()`
followed by `focus()`, then `'focus-input'` is sent to the content layer). -/
theorem hotkey_show_activates (w : WindowState) (a : Bool)
    (hd : w.destroyed = false) (hv : w.visible = false) :
    (hotkeyToggle ⟨some w, a⟩).overlayVisible = true ∧
    (hotkeyToggle ⟨some w, a⟩).overlayFocused = true := by
  rw [hotkeyToggle_of_hidden w a hd hv]
  exact ⟨rfl, rfl⟩

/-- C1 witness: the amended theorem applied to the startup window. -/
theorem hotkey_show_activates_witness :
    (hotkeyToggle ⟨some (createOverlayWindow 1440), false⟩).overlayVisible = true ∧
    (hotkeyToggle ⟨some (createOverlayWindow 1440), false⟩).overlayFocused = true :=
  hotkey_show_activates (createOverlayWindow 1440) false rfl rfl

/-- C2: the window reference guards return the sentinel `false` without
invoking the operation when the reference is null or destroyed; on a live
window they return the operation's value, and a thrown error is caught and
converted to the sentinel; the result is always either a value produced by
a successful invocation on a live window or the sentinel — no exception
propagates. -/
theorem safe_window_guard (α : Type) (op : WindowState → Except String α)
    (w : WindowState) :
    (safeOverlayOperation none op = .sentinelFalse ∧
      safeMainWindowOperation none op = .sentinelFalse) ∧
    (w.destroyed = true →
      safeOverlayOperation (some w) op = .sentinelFalse ∧
      safeMainWindowOperation (some w) op = .sentinelFalse) ∧
    (∀ a, w.destroyed = false → op w = .ok a →
      safeOverlayOperation (some w) op = .value a ∧
      safeMainWindowOperation (some w) op = .value a) ∧
    (∀ e, op w = .error e →
      safeOverlayOperation (some w) op = .sentinelFalse ∧
      safeMainWindowOperation (some w) op = .sentinelFalse) ∧
    ((∃ a, safeOverlayOperation (some w) op = .value a ∧ op w = .ok a ∧
        w.destroyed = false) ∨
      safeOverlayOperation (some w) op = .sentinelFalse) := by
  refine ⟨⟨rfl, rfl⟩, fun hd => ?_, fun a hd hop => ?_, fun e hop => ?_, ?_⟩
  · simp [safeOverlayOperation, safeMainWindowOperation, hd]
  · simp [safeOverlayOperation, safeMainWindowOperation, hd, hop]
  · cases hd : w.destroyed <;>
      simp [safeOverlayOperation, safeMainWindowOperation, hd, hop]
  · cases hd : w.destroyed with
    | false =>
      cases hop : op w with
      | ok a =>
        exact Or.inl ⟨a, by simp [safeOverlayOperation, hd, hop], rfl, rfl⟩
      | error e =>
        exact Or.inr (by simp [safeOverlayOperation, hd, hop])
    | true => exact Or.inr (by simp [safeOverlayOperation, hd])

/-- C2 witness: the guard applied to a destroyed window, to a live window
with a succeeding operation, and to a live window with a throwing
operation. -/
theorem safe_window_guard_witness :
    safeOverlayOperation (some destroyedWindow) (fun _ => Except.ok true) =
      .sentinelFalse ∧
    safeOverlayOperation (some visibleWindow) (fun _ => Except.ok true) =
      .value true ∧
    safeOverlayOperation (some visibleWindow)
      (fun _ => (Except.error "boom" : Except String Bool)) = .sentinelFalse := by
  have h1 := safe_window_guard Bool (fun _ => Except.ok true) destroyedWindow
  have h2 := safe_window_guard Bool (fun _ => Except.ok true) visibleWindow
  have h3 := safe_window_guard Bool
    (fun _ => (Except.error "boom" : Except String Bool)) visibleWindow
  exact ⟨(h1.2.1 rfl).1, (h2.2.2.1 true rfl rfl).1, (h3.2.2.2.1 "boom" rfl).1⟩

/-- C3 (counterexample): the overlay was visible at (300, 400) when the
crash destroyed it; the reconstructed window is created hidden
(`show: false`) at the fixed default position ((1440 − 700) / 2, 100) — the
pre-crash position and Showing state are not restored. -/
theorem crash_recreate_cex :
    preCrashWindow.visible = true ∧
    preCrashWindow.x = 300 ∧ preCrashWindow.y = 400 ∧
    (crashedTimeoutFire 1440 ⟨some preCrashWindow, false⟩).1.overlayWindow =
      some (createOverlayWindow 1440) ∧
    (createOverlayWindow 1440).visible = false ∧
    (createOverlayWindow 1440).x = 370 ∧
    (createOverlayWindow 1440).y = 100 ∧
    (createOverlayWindow 1440).visible ≠ preCrashWindow.visible ∧
    (createOverlayWindow 1440).x ≠ preCrashWindow.x ∧
    (createOverlayWindow 1440).y ≠ preCrashWindow.y := by
  decide

/-- C3 (amended): after a crash that destroyed the overlay window,
reconstruction is scheduled with a 1000 ms delay and produces a brand-new
window, created hidden at the fixed default position
((screenWidth − 700) / 2, 100), regardless of the pre-crash position and
visibility. -/
theorem crash_recreate_default_position (sw : Int) (w : WindowState)
    (a : Bool) (hd : w.destroyed = true) :
    (crashedTimeoutFire sw ⟨some w, a⟩).2 = true ∧
    (crashedTimeoutFire sw ⟨some w, a⟩).1.overlayWindow =
      some (createOverlayWindow sw) ∧
    (createOverlayWindow sw).visible = false ∧
    (createOverlayWindow sw).focused = false ∧
    (createOverlayWindow sw).x = (sw - 700) / 2 ∧
    (createOverlayWindow sw).y = 100 ∧
    recreateDelayMs = 1000 := by
  refine ⟨?_, ?_, rfl, rfl, rfl, rfl, rfl⟩ <;>
    simp [crashedTimeoutFire, hd]

/-- C3 witness: the amended theorem applied to the concrete pre-crash
window. -/
theorem crash_recreate_default_position_witness :
    (crashedTimeoutFire 1440 ⟨some preCrashWindow, false⟩).2 = true ∧
    (crashedTimeoutFire 1440 ⟨some preCrashWindow, false⟩).1.overlayWindow =
      some (createOverlayWindow 1440) ∧
    (createOverlayWindow 1440).visible = false ∧
    (createOverlayWindow 1440).focused = false ∧
    (createOverlayWindow 1440).x = (1440 - 700) / 2 ∧
    (createOverlayWindow 1440).y = 100 ∧
    recreateDelayMs = 1000 :=
  crash_recreate_default_position 1440 preCrashWindow false rfl

/-- C4: starting from the startup (hidden) state, the overlay's visibility
after `k` hotkey toggles is exactly the parity of `k`: each toggle while
hidden shows the overlay, each toggle while visible hides it, and two
consecutive toggles return to the previous visibility (in particular two
toggles from Hidden return to Hidden). -/
theorem hotkey_toggle_alternates (sw : Int) (k : Nat) :
    (togglesN k (initMainState sw)).overlayVisible = decide (k % 2 = 1) ∧
    (togglesN (k + 2) (initMainState sw)).overlayVisible =
      (togglesN k (initMainState sw)).overlayVisible ∧
    (togglesN 2 (initMainState sw)).overlayVisible = false := by
  have h1 := togglesN_goodVisible k (initMainState sw) (initMainState_good sw)
  have h2 := togglesN_goodVisible (k + 2) (initMainState sw) (initMainState_good sw)
  have h3 := togglesN_goodVisible 2 (initMainState sw) (initMainState_good sw)
  have hv : (initMainState sw).overlayVisible = false := rfl
  have hmod : (k + 2) % 2 = k % 2 := by omega
  refine ⟨?_, ?_, ?_⟩
  · rw [h1.2, hv]; simp
  · rw [h1.2, h2.2, hmod]
  · rw [h3.2, hv]; simp

/-- C5: the `'blur'` handler only re-asserts the always-on-top and
visible-on-all-workspaces flags; visibility (and every other attribute) is
unchanged — losing OS focus never hides the overlay. -/
theorem blur_keeps_visibility (w : WindowState) :
    (blurHandler w).visible = w.visible ∧
    (blurHandler w).focused = w.focused ∧
    (blurHandler w).alwaysOnTop = true ∧
    (blurHandler w).visibleOnAllWorkspaces = true ∧
    (blurHandler w).ignoreMouseEvents = w.ignoreMouseEvents ∧
    (blurHandler w).destroyed = w.destroyed ∧
    (blurHandler w).x = w.x ∧
    (blurHandler w).y = w.y :=
  ⟨rfl, rfl, rfl, rfl, rfl, rfl, rfl, rfl⟩

/-- C6: for every failing backend outcome the `'send-command'` handler
returns (never throws) an object with `success: false`, a human-readable
error message — `Backend service is not running` for connection refused —
and a remedy string in the `result` field. -/
theorem send_command_error_reply (status : Nat) (statusText : String)
    (dataError : Option String) :
    (sendCommandHandler .connRefused).success = false ∧
    (sendCommandHandler .connRefused).error =
      some "Backend service is not running" ∧
    (sendCommandHandler .connRefused).result = some defaultSuggestion ∧
    (sendCommandHandler .timedOut).success = false ∧
    (sendCommandHandler .timedOut).error =
      some "Backend service is not responding (timeout)" ∧
    (sendCommandHandler .timedOut).result =
      some "The backend may be overloaded or stuck" ∧
    (sendCommandHandler (.httpError status statusText dataError)).success = false ∧
    (sendCommandHandler (.httpError status statusText dataError)).error.isSome = true ∧
    (sendCommandHandler (.httpError status statusText dataError)).result.isSome = true ∧
    (sendCommandHandler .otherFailure).success = false ∧
    (sendCommandHandler .otherFailure).error = some defaultErrorMessage ∧
    (sendCommandHandler .otherFailure).result = some defaultSuggestion :=
  ⟨rfl, rfl, rfl, rfl, rfl, rfl, rfl, rfl, rfl, rfl, rfl, rfl⟩

/-- C7 (counterexample): there is no fixed bound on reconstruction
attempts — for every candidate bound `N`, a sequence of `N + 1` crash
cycles from startup performs `N + 1` reconstructions. -/
theorem recreate_unbounded_cex :
    ¬ ∃ N : Nat, ∀ k : Nat,
      recreateAttempts 1440 k (initMainState 1440) ≤ N := by
  rintro ⟨N, h⟩
  have h1 := h (N + 1)
  rw [recreateAttempts_eq] at h1
  omega

/-- C7 (amended): the crashed handler retries without any limit: over `k`
crash cycles it performs exactly `k` reconstruction attempts, from any
state — it never gives up, never stops recreating, and has no failure
path that remains Hidden. -/
theorem recreate_no_retry_bound (sw : Int) (k : Nat) (s : MainState) :
    recreateAttempts sw k s = k :=
  recreateAttempts_eq sw k s

/-- C8 (modelled from the spec, the timer logic living in the content
layer): a timer fire hides the overlay only when the state is still
Showing; Clicked or HoverEntered while Showing transitions to Pinned and
cancels the active timer; no timer fire transitions out of Pinned (or out
of Hidden). -/
theorem timer_fire_respects_pin (t : Bool) :
    smStep ⟨.Showing, t⟩ .TimerFire = ⟨.Hidden, false⟩ ∧
    smStep ⟨.Pinned, t⟩ .TimerFire = ⟨.Pinned, t⟩ ∧
    smStep ⟨.Hidden, t⟩ .TimerFire = ⟨.Hidden, t⟩ ∧
    smStep ⟨.Showing, t⟩ .Clicked = ⟨.Pinned, false⟩ ∧
    smStep ⟨.Showing, t⟩ .HoverEntered = ⟨.Pinned, false⟩ :=
  ⟨rfl, rfl, rfl, rfl, rfl⟩

/-- C9: every hide of the overlay not authorised by the hotkey toggle is
undone by the `'hide'` handler (`showInactive` plus flag re-assertion); an
authorised hide is accepted and consumes the `allowOverlayHide` flag, so a
toggle authorises at most one hide; the 1500 ms safety timeout also clears
the flag; and a close attempt is prevented and converted into a hide. -/
theorem overlay_hide_guard (w : WindowState) (hd : w.destroyed = false) :
    (windowHide ⟨some w, false⟩ =
      ⟨some { w with
          visible := true
          focused := false
          alwaysOnTop := true
          visibleOnAllWorkspaces := true }, false⟩) ∧
    (windowHide ⟨some w, true⟩ =
      ⟨some { w with visible := false, focused := false }, false⟩) ∧
    (w.visible = true →
      (hotkeyToggle ⟨some w, false⟩).allowOverlayHide = false ∧
      (hotkeyToggle ⟨some w, false⟩).overlayVisible = false ∧
      (windowHide (hotkeyToggle ⟨some w, false⟩)).overlayVisible = true) ∧
    (∀ s : MainState, (allowHideSafetyReset s).allowOverlayHide = false) ∧
    allowHideSafetyTimeoutMs = 1500 ∧
    (∀ s : MainState, closeAttempt s = windowHide s) ∧
    (∃ w2, (closeAttempt ⟨some w, false⟩).overlayWindow = some w2 ∧
      w2.destroyed = false ∧ w2.visible = true) := by
  have hun : windowHide ⟨some w, false⟩ =
      ⟨some { w with
          visible := true
          focused := false
          alwaysOnTop := true
          visibleOnAllWorkspaces := true }, false⟩ := by
    simp [windowHide, hideEventHandler, hd, WindowState.hideWindow,
      WindowState.showInactive, WindowState.setAlwaysOnTop,
      WindowState.setVisibleOnAllWorkspaces]
  refine ⟨hun, ?_, fun hv => ?_, fun s => rfl, rfl, fun s => rfl, ?_⟩
  · simp [windowHide, hideEventHandler, hd, WindowState.hideWindow]
  · rw [hotkeyToggle_of_visible w false hd hv]
    refine ⟨rfl, rfl, ?_⟩
    simp [windowHide, hideEventHandler, hd, MainState.overlayVisible,
      WindowState.hideWindow, WindowState.showInactive,
      WindowState.setAlwaysOnTop, WindowState.setVisibleOnAllWorkspaces]
  · rw [show closeAttempt ⟨some w, false⟩ = windowHide ⟨some w, false⟩ from rfl,
      hun]
    exact ⟨_, rfl, hd, rfl⟩

/-- C9 witness: the theorem applied to the concrete visible window (the
unauthorised-hide restore, the single authorised hide per toggle, the
safety timeout, and the close conversion at that input). -/
theorem overlay_hide_guard_witness :
    windowHide ⟨some visibleWindow, false⟩ =
      ⟨some { visibleWindow with
          visible := true
          focused := false
          alwaysOnTop := true
          visibleOnAllWorkspaces := true }, false⟩ ∧
    (hotkeyToggle ⟨some visibleWindow, false⟩).allowOverlayHide = false ∧
    (hotkeyToggle ⟨some visibleWindow, false⟩).overlayVisible = false ∧
    (windowHide (hotkeyToggle ⟨some visibleWindow, false⟩)).overlayVisible = true ∧
    allowHideSafetyTimeoutMs = 1500 := by
  have h := overlay_hide_guard visibleWindow rfl
  exact ⟨h.1, (h.2.2.1 rfl).1, (h.2.2.1 rfl).2.1, (h.2.2.1 rfl).2.2,
    h.2.2.2.2.1⟩

/-- C10: the overlay is created click-through (mouse events ignored and
forwarded) and hidden; across any sequence of hotkey toggles from startup a
live window exists whose ignore-mouse-events flag is the negation of its
visibility — the overlay intercepts mouse input exactly between a
hotkey-triggered show and the next hotkey-triggered hide. -/
theorem overlay_clickthrough_invariant (sw : Int) (k : Nat) :
    (createOverlayWindow sw).ignoreMouseEvents = true ∧
    (createOverlayWindow sw).forwardMouseEvents = true ∧
    (createOverlayWindow sw).visible = false ∧
    ∃ w, (togglesN k (initMainState sw)).overlayWindow = some w ∧
      w.destroyed = false ∧ w.ignoreMouseEvents = !w.visible := by
  refine ⟨rfl, rfl, rfl, ?_⟩
  obtain ⟨w, a, heq, hd, hi⟩ :=
    (togglesN_goodVisible k (initMainState sw) (initMainState_good sw)).1
  exact ⟨w, by rw [heq], hd, hi⟩

end Apx
